import Mathlib

/-!
Verification development for the emotion-decoding chatbot service (`src/app.py`).

Strings are modelled as `List Char`.  Python library functions used by the
source (`str.split`, `str.strip`, `json.loads`, dict assignment) are modelled
explicitly below; the repository's own functions (`_parse_emotion_response`,
`_error_response`, the three `analyze_*_emotion` handlers and the three Flask
routes) are translated directly from `src/app.py`.
-/

mutual

/-- JSON values, as produced by the model of `json.loads`.  Numbers keep the
numeric literal exactly as written (sign, digits, fraction, exponent), since
no arithmetic is ever performed on them by the program. -/
inductive JValue : Type where
  | null : JValue
  | bool : Bool → JValue
  | num : List Char → JValue
  | str : List Char → JValue
  | arr : JArr → JValue
  | obj : JObj → JValue

/-- Spine of a JSON array (mutual with `JValue`). -/
inductive JArr : Type where
  | anil : JArr
  | acons : JValue → JArr → JArr

/-- Spine of a JSON object: an insertion-ordered association list of
key/value pairs, mirroring a Python `dict`. -/
inductive JObj : Type where
  | onil : JObj
  | ocons : List Char → JValue → JObj → JObj

end

mutual

/-- Decidable equality for `JValue`. -/
def jvalBEq : JValue → JValue → Bool
  | .null, .null => true
  | .bool a, .bool b => a == b
  | .num a, .num b => a == b
  | .str a, .str b => a == b
  | .arr a, .arr b => jarrBEq a b
  | .obj a, .obj b => jobjBEq a b
  | _, _ => false

/-- Decidable equality for `JArr`. -/
def jarrBEq : JArr → JArr → Bool
  | .anil, .anil => true
  | .acons v a, .acons w b => jvalBEq v w && jarrBEq a b
  | _, _ => false

/-- Decidable equality for `JObj`. -/
def jobjBEq : JObj → JObj → Bool
  | .onil, .onil => true
  | .ocons k v a, .ocons l w b => k == l && jvalBEq v w && jobjBEq a b
  | _, _ => false

end

/-- Python dict assignment `d[k] = v`: replace the value at an existing key in
place, else append the pair at the end (insertion order preserved). -/
def dictSet : JObj → List Char → JValue → JObj
  | .onil, k, v => .ocons k v .onil
  | .ocons k1 v1 rest, k, v =>
    if k1 = k then .ocons k v rest else .ocons k1 v1 (dictSet rest k v)

/-- Python dict lookup `d.get(k)`. -/
def dictGet : JObj → List Char → Option JValue
  | .onil, _ => none
  | .ocons k1 v rest, k => if k1 = k then some v else dictGet rest k

/-- Lookup of a key in a JSON value; `none` when the value is not an object. -/
def jGet : JValue → List Char → Option JValue
  | .obj o, k => dictGet o k
  | _, _ => none

/-- Whether a JSON value is an object (a Python `dict`). -/
def isObjJ : JValue → Bool
  | .obj _ => true
  | _ => false

/-- Does some member of an object hold a nested object as its value? -/
def objHasObjMember : JObj → Bool
  | .onil => false
  | .ocons _ v rest => isObjJ v || objHasObjMember rest

/-- Does a result record contain a nested object one level down? -/
def result_has_nested : JValue → Bool
  | .obj o => objHasObjMember o
  | _ => false

/-- Building a Python dict from parsed members, in order: repeated assignment,
so a duplicated key keeps its first position and its last value, exactly as
`json.loads` builds its result dict. -/
def dedupAux : JObj → JObj → JObj
  | acc, .onil => acc
  | acc, .ocons k v rest => dedupAux (dictSet acc k v) rest

/-- Normalise the raw member list of a parsed JSON object to dict semantics. -/
def dedupFields (ms : JObj) : JObj := dedupAux .onil ms

/-- JSON inter-token whitespace (RFC 8259, as accepted by `json.loads`). -/
def isJsonWs (c : Char) : Bool :=
  c == ' ' || c == '\t' || c == '\n' || c == '\r'

/-- Skip JSON whitespace. -/
def skipWs (s : List Char) : List Char := s.dropWhile isJsonWs

/-- Whitespace stripped by Python `str.strip()` (the ASCII part). -/
def isPyWs (c : Char) : Bool :=
  c == ' ' || c == '\t' || c == '\n' || c == '\r' || c == '\x0b' || c == '\x0c'

/-- Model of Python `str.strip()`. -/
def pyStrip (s : List Char) : List Char :=
  ((s.dropWhile isPyWs).reverse.dropWhile isPyWs).reverse

/-- Value of a hexadecimal digit, used for `\u` escapes. -/
def hexDigitVal (c : Char) : Option Nat :=
  if c.isDigit then some (c.toNat - ('0').toNat)
  else if ('a').toNat ≤ c.toNat && c.toNat ≤ ('f').toNat then
    some (c.toNat - ('a').toNat + 10)
  else if ('A').toNat ≤ c.toNat && c.toNat ≤ ('F').toNat then
    some (c.toNat - ('A').toNat + 10)
  else none

/-- Prepend a character to the string part of a string-parser result. -/
def consFirst (c : Char) : Option (List Char × List Char) → Option (List Char × List Char)
  | none => none
  | some (cs, r) => some (c :: cs, r)

/-- Modelled from the library: the body of a JSON string after the opening
quote, per `json.loads` (strict): escapes decoded, unescaped control
characters refused; `\u` escapes are restricted to Unicode scalar values. -/
def parseStr : Nat → List Char → Option (List Char × List Char)
  | 0, _ => none
  | Nat.succ fuel, s =>
    match s with
    | [] => none
    | '"' :: r => some ([], r)
    | '\\' :: r =>
      match r with
      | '"' :: r2 => consFirst '"' (parseStr fuel r2)
      | '\\' :: r2 => consFirst '\\' (parseStr fuel r2)
      | '/' :: r2 => consFirst '/' (parseStr fuel r2)
      | 'b' :: r2 => consFirst '\x08' (parseStr fuel r2)
      | 'f' :: r2 => consFirst '\x0c' (parseStr fuel r2)
      | 'n' :: r2 => consFirst '\n' (parseStr fuel r2)
      | 'r' :: r2 => consFirst '\r' (parseStr fuel r2)
      | 't' :: r2 => consFirst '\t' (parseStr fuel r2)
      | 'u' :: h1 :: h2 :: h3 :: h4 :: r2 =>
        match hexDigitVal h1, hexDigitVal h2, hexDigitVal h3, hexDigitVal h4 with
        | some a, some b, some c, some d =>
          let n := ((a * 16 + b) * 16 + c) * 16 + d
          if n < 55296 || 57344 ≤ n then consFirst (Char.ofNat n) (parseStr fuel r2)
          else none
        | _, _, _, _ => none
      | _ => none
    | c :: r => if c.toNat < 32 then none else consFirst c (parseStr fuel r)

/-- Leading decimal digits of a string, and the rest. -/
def takeDigits (s : List Char) : List Char × List Char :=
  (s.takeWhile Char.isDigit, s.dropWhile Char.isDigit)

/-- Integer part of a JSON number: `0`, or a nonzero digit followed by
digits (leading zeros refused, as in `json.loads`). -/
def parseIntPart : List Char → Option (List Char × List Char)
  | [] => none
  | c :: r =>
    if c = '0' then some ([c], r)
    else if c.isDigit then
      let p := takeDigits r
      some (c :: p.1, p.2)
    else none

/-- Optional fraction part of a JSON number. -/
def parseFracPart : List Char → Option (List Char × List Char)
  | '.' :: r =>
    let p := takeDigits r
    if p.1.isEmpty then none else some ('.' :: p.1, p.2)
  | s => some ([], s)

/-- Exponent digits, after `e`/`E` and an optional sign. -/
def expDigits (pre : List Char) (s : List Char) : Option (List Char × List Char) :=
  let p := takeDigits s
  if p.1.isEmpty then none else some (pre ++ p.1, p.2)

/-- Optional exponent part of a JSON number. -/
def parseExpPart : List Char → Option (List Char × List Char)
  | [] => some ([], [])
  | c :: r =>
    if c = 'e' ∨ c = 'E' then
      match r with
      | '+' :: r2 => expDigits [c, '+'] r2
      | '-' :: r2 => expDigits [c, '-'] r2
      | r2 => expDigits [c] r2
    else some ([], c :: r)

/-- Modelled from the library: a JSON number token per `json.loads`,
kept as its literal characters. -/
def parseNum (s : List Char) : Option (JValue × List Char) :=
  let signed : List Char × List Char :=
    match s with
    | '-' :: r => (['-'], r)
    | _ => ([], s)
  match parseIntPart signed.2 with
  | none => none
  | some (ip, r1) =>
    match parseFracPart r1 with
    | none => none
    | some (fp, r2) =>
      match parseExpPart r2 with
      | none => none
      | some (ep, r3) => some (.num (signed.1 ++ ip ++ fp ++ ep), r3)

mutual

/-- Modelled from the library: one JSON value and the remaining input,
per strict `json.loads` (fuel-indexed recursive descent). -/
def parseVal : Nat → List Char → Option (JValue × List Char)
  | 0, _ => none
  | Nat.succ fuel, s =>
    match skipWs s with
    | 'n' :: 'u' :: 'l' :: 'l' :: r => some (.null, r)
    | 't' :: 'r' :: 'u' :: 'e' :: r => some (.bool true, r)
    | 'f' :: 'a' :: 'l' :: 's' :: 'e' :: r => some (.bool false, r)
    | '"' :: r =>
      match parseStr (r.length + 1) r with
      | some (cs, r2) => some (.str cs, r2)
      | none => none
    | '[' :: r =>
      match skipWs r with
      | ']' :: r2 => some (.arr .anil, r2)
      | r2 =>
        match parseElems fuel r2 with
        | some (es, r3) => some (.arr es, r3)
        | none => none
    | '\x7b' :: r =>
      match skipWs r with
      | '\x7d' :: r2 => some (.obj .onil, r2)
      | r2 =>
        match parseMembers fuel r2 with
        | some (ms, r3) => some (.obj (dedupFields ms), r3)
        | none => none
    | r => parseNum r

/-- Comma-separated JSON array elements up to the closing bracket. -/
def parseElems : Nat → List Char → Option (JArr × List Char)
  | 0, _ => none
  | Nat.succ fuel, s =>
    match parseVal fuel s with
    | none => none
    | some (v, r) =>
      match skipWs r with
      | ',' :: r2 =>
        match parseElems fuel r2 with
        | some (es, r3) => some (.acons v es, r3)
        | none => none
      | ']' :: r2 => some (.acons v .anil, r2)
      | _ => none

/-- Comma-separated JSON object members up to the closing brace. -/
def parseMembers : Nat → List Char → Option (JObj × List Char)
  | 0, _ => none
  | Nat.succ fuel, s =>
    match skipWs s with
    | '"' :: r =>
      match parseStr (r.length + 1) r with
      | none => none
      | some (k, r1) =>
        match skipWs r1 with
        | ':' :: r2 =>
          match parseVal fuel r2 with
          | none => none
          | some (v, r3) =>
            match skipWs r3 with
            | ',' :: r4 =>
              match parseMembers fuel r4 with
              | some (ms, r5) => some (.ocons k v ms, r5)
              | none => none
            | '\x7d' :: r4 => some (.ocons k v .onil, r4)
            | _ => none
        | _ => none
    | _ => none

end

/-- Modelled from the library: Python `json.loads` — exactly one JSON value
plus surrounding whitespace, else failure (`none` stands for the raised
`JSONDecodeError`). -/
def json_loads (s : List Char) : Option JValue :=
  match parseVal (2 * s.length + 8) s with
  | some (v, r) => if skipWs r = [] then some v else none
  | none => none

/-- Index of the first occurrence of `sep` as a substring (Python `str.find`,
also the basis of `in` and `split`). -/
def firstOcc (sep : List Char) : List Char → Option Nat
  | [] => if sep.isEmpty then some 0 else none
  | c :: rest =>
    if sep.isPrefixOf (c :: rest) then some 0
    else (firstOcc sep rest).map (fun n => n + 1)

/-- Model of Python's substring test `sep in s`. -/
def pyContains (sep s : List Char) : Bool := (firstOcc sep s).isSome

/-- Model of Python `s.split(sep)` for non-empty `sep`: cut at each
non-overlapping occurrence, scanning left to right (fuel-indexed; the fuel
`s.length + 1` used by `pySplit` always suffices). -/
def pySplitFuel (sep : List Char) : Nat → List Char → List (List Char)
  | 0, s => [s]
  | Nat.succ fuel, s =>
    match firstOcc sep s with
    | none => [s]
    | some i => s.take i :: pySplitFuel sep fuel (s.drop (i + sep.length))

/-- Python `s.split(sep)` (separator first). -/
def pySplit (sep s : List Char) : List (List Char) :=
  pySplitFuel sep (s.length + 1) s

/-- The part of `s` strictly before the first occurrence of `sep`
(all of `s` when `sep` does not occur). -/
def beforeFirst (sep s : List Char) : List Char :=
  match firstOcc sep s with
  | none => s
  | some i => s.take i

/-- The part of `s` strictly after the first occurrence of `sep`
(all of `s` when `sep` does not occur). -/
def afterFirstOcc (sep s : List Char) : List Char :=
  match firstOcc sep s with
  | none => s
  | some i => s.drop (i + sep.length)

/-- The JSON code-fence marker looked for first by `_parse_emotion_response`. -/
def jsonFenceM : List Char := ("```json").data

/-- The generic code-fence marker. -/
def fenceM : List Char := ("```").data

/-- Candidate chosen on the JSON-fence branch of `_parse_emotion_response`:
`response_text.split('```json')[1].split('```')[0]` (app.py line 211). -/
def json_candidate (response_text : List Char) : List Char :=
  (pySplit fenceM ((pySplit jsonFenceM response_text).getD 1 [])).getD 0 []

/-- Candidate chosen on the generic-fence branch:
`response_text.split('```')[1].split('```')[0]` (app.py line 213). -/
def generic_candidate (response_text : List Char) : List Char :=
  (pySplit fenceM ((pySplit fenceM response_text).getD 1 [])).getD 0 []

/-- The `json_str` selected by `_parse_emotion_response` (app.py lines
210-215): JSON-fence branch, else generic-fence branch, else the whole text. -/
def selected_candidate (response_text : List Char) : List Char :=
  if pyContains jsonFenceM response_text then json_candidate response_text
  else if pyContains fenceM response_text then generic_candidate response_text
  else response_text

/-- The fallback record built in the `except` branch of
`_parse_emotion_response` (app.py lines 221-226). -/
def fallback_record (response_text : List Char) : JValue :=
  .obj (.ocons (("primary_emotion").data) (.str (("unknown").data))
    (.ocons (("confidence").data) (.num (("0").data))
      (.ocons (("explanation").data) (.str response_text)
        (.ocons (("raw_response").data) (.str response_text) .onil))))

/-- `EmotionDecoder._parse_emotion_response` (app.py lines 204-226): select a
candidate, strip it, `json.loads` it; any parse failure falls back. -/
def parse_emotion_response (response_text : List Char) : JValue :=
  match json_loads (pyStrip (selected_candidate response_text)) with
  | some result => result
  | none => fallback_record response_text

/-- `EmotionDecoder._error_response` (app.py lines 228-238), with the
`datetime.now().isoformat()` clock value passed in as `now`. -/
def error_response (error_msg : List Char) (now : List Char) : JValue :=
  .obj (.ocons (("error").data) (.bool true)
    (.ocons (("message").data) (.str error_msg)
      (.ocons (("primary_emotion").data) (.str (("error").data))
        (.ocons (("confidence").data) (.num (("0").data))
          (.ocons (("timestamp").data) (.str now) .onil)))))

/-- Message of the `TypeError` raised by `result['input_type'] = ...` when
`_parse_emotion_response` returned a non-dict value (the exact Python message
text names the offending type; the claims never inspect it). -/
def item_assignment_error_msg : List Char :=
  ("object does not support item assignment").data

/-- `EmotionDecoder.analyze_text_emotion` (app.py lines 62-97).  The upstream
round trip `self.model.generate_content(prompt)` is a parameter: `.ok` carries
`response.text`, `.error` the message of a raised exception.  The two dict
assignments on lines 89-90 raise `TypeError` when the parse result is not a
dict; the catch-all on line 95 turns any raise into `_error_response`. -/
def analyze_text_emotion (upstream : Except (List Char) (List Char))
    (text : List Char) (now : List Char) : JValue :=
  match upstream with
  | .error e => error_response e now
  | .ok response_text =>
    match parse_emotion_response response_text with
    | .obj fields =>
      .obj (dictSet (dictSet fields (("input_type").data) (.str (("text").data)))
        (("timestamp").data) (.str now))
    | _ => error_response item_assignment_error_msg now

/-- Inline image payload: a base64 `str`, or raw `bytes` (app.py line 99). -/
inductive ImageData : Type where
  | strb64 : List Char → ImageData
  | bytes : List Char → ImageData
deriving DecidableEq

/-- The `Part` handed to the model: `Part.from_uri(uri)`, or
`Part.from_data(base64.b64decode(s))`, or `Part.from_data(raw_bytes)`. -/
inductive ImagePart : Type where
  | fromUri : List Char → ImagePart
  | fromB64Data : List Char → ImagePart
  | fromBytes : List Char → ImagePart
deriving DecidableEq

/-- Python truthiness of an optional string (`None` and `''` are falsy). -/
def pyTruthyOptStr : Option (List Char) → Bool
  | none => false
  | some s => !s.isEmpty

/-- Image-part preparation, identical in `analyze_image_emotion` (app.py lines
128-136) and `analyze_multimodal_emotion` (lines 182-190): `if image_uri:`
takes `Part.from_uri`, else decode/wrap `image_data`; `Part.from_data(None)`
when both are absent raises (modelled as `.error`). -/
def prepare_image_part (image_data : Option ImageData)
    (image_uri : Option (List Char)) : Except (List Char) ImagePart :=
  if pyTruthyOptStr image_uri then .ok (.fromUri (image_uri.getD []))
  else
    match image_data with
    | some (.strb64 s) => .ok (.fromB64Data s)
    | some (.bytes b) => .ok (.fromBytes b)
    | none => .error (("from_data requires data").data)

/-- `EmotionDecoder.analyze_image_emotion` (app.py lines 99-148).  The
upstream call `generate_content([prompt, image_part])` is a parameter mapping
the prepared part to the outcome. -/
def analyze_image_emotion (upstream : ImagePart → Except (List Char) (List Char))
    (image_data : Option ImageData) (image_uri : Option (List Char))
    (now : List Char) : JValue :=
  match prepare_image_part image_data image_uri with
  | .error e => error_response e now
  | .ok image_part =>
    match upstream image_part with
    | .error e => error_response e now
    | .ok response_text =>
      match parse_emotion_response response_text with
      | .obj fields =>
        .obj (dictSet (dictSet fields (("input_type").data) (.str (("image").data)))
          (("timestamp").data) (.str now))
      | _ => error_response item_assignment_error_msg now

/-- `EmotionDecoder.analyze_multimodal_emotion` (app.py lines 150-202). -/
def analyze_multimodal_emotion (upstream : ImagePart → Except (List Char) (List Char))
    (text : List Char) (image_data : Option ImageData)
    (image_uri : Option (List Char)) (now : List Char) : JValue :=
  match prepare_image_part image_data image_uri with
  | .error e => error_response e now
  | .ok image_part =>
    match upstream image_part with
    | .error e => error_response e now
    | .ok response_text =>
      match parse_emotion_response response_text with
      | .obj fields =>
        .obj (dictSet (dictSet fields (("input_type").data) (.str (("multimodal").data)))
          (("timestamp").data) (.str now))
      | _ => error_response item_assignment_error_msg now

/-- Body of the 400 response `{'error': 'Text is required'}`. -/
def text_required_error : JValue :=
  .obj (.ocons (("error").data) (.str (("Text is required").data)) .onil)

/-- Body of the 400 response `{'error': 'Image data or URI is required'}`. -/
def image_required_error : JValue :=
  .obj (.ocons (("error").data) (.str (("Image data or URI is required").data)) .onil)

/-- Python truthiness of the optional `image` field of a request body. -/
def pyTruthyImg : Option ImageData → Bool
  | none => false
  | some (.strb64 s) => !s.isEmpty
  | some (.bytes b) => !b.isEmpty

/-- Route `POST /api/analyze/text` (app.py lines 263-285).  Result is
`(status code, response body, number of upstream generate_content calls)`. -/
def analyze_text (text : Option (List Char))
    (upstream : Except (List Char) (List Char)) (now : List Char) :
    Nat × JValue × Nat :=
  let t := text.getD []
  if t.isEmpty then (400, text_required_error, 0)
  else (200, analyze_text_emotion upstream t now, 1)

/-- Route `POST /api/analyze/image` (app.py lines 287-310). -/
def analyze_image (image : Option ImageData) (image_uri : Option (List Char))
    (upstream : ImagePart → Except (List Char) (List Char)) (now : List Char) :
    Nat × JValue × Nat :=
  if !pyTruthyImg image && !pyTruthyOptStr image_uri then
    (400, image_required_error, 0)
  else (200, analyze_image_emotion upstream image image_uri now, 1)

/-- Route `POST /api/analyze/multimodal` (app.py lines 312-339). -/
def analyze_multimodal (text : Option (List Char)) (image : Option ImageData)
    (image_uri : Option (List Char))
    (upstream : ImagePart → Except (List Char) (List Char)) (now : List Char) :
    Nat × JValue × Nat :=
  let t := text.getD []
  if t.isEmpty then (400, text_required_error, 0)
  else if !pyTruthyImg image && !pyTruthyOptStr image_uri then
    (400, image_required_error, 0)
  else (200, analyze_multimodal_emotion upstream t image image_uri now, 1)

/-- Modelled from the spec: "take the substring between that marker and the
next closing fence" — the candidate C1 asserts for the JSON-fence branch. -/
def spec_json_candidate (raw_text : List Char) : List Char :=
  beforeFirst fenceM (afterFirstOcc jsonFenceM raw_text)

/-- Modelled from the spec: "take the substring between the first pair of
fence markers" — the candidate C4 asserts for the generic-fence branch. -/
def spec_generic_candidate (raw_text : List Char) : List Char :=
  beforeFirst fenceM (afterFirstOcc fenceM raw_text)

mutual

theorem jvalBEq_refl : ∀ a : JValue, jvalBEq a a = true
  | .null => rfl
  | .bool b => by simp [jvalBEq]
  | .num a => by simp [jvalBEq]
  | .str a => by simp [jvalBEq]
  | .arr a => by simp [jvalBEq, jarrBEq_refl a]
  | .obj a => by simp [jvalBEq, jobjBEq_refl a]

theorem jarrBEq_refl : ∀ a : JArr, jarrBEq a a = true
  | .anil => rfl
  | .acons v a => by simp [jarrBEq, jvalBEq_refl v, jarrBEq_refl a]

theorem jobjBEq_refl : ∀ a : JObj, jobjBEq a a = true
  | .onil => rfl
  | .ocons k v a => by simp [jobjBEq, jvalBEq_refl v, jobjBEq_refl a]

end

theorem jval_ne_of_beq_false {a b : JValue} (h : jvalBEq a b = false) : a ≠ b := by
  intro he
  subst he
  rw [jvalBEq_refl] at h
  cases h

theorem firstOcc_nil (sep : List Char) (hsep : sep ≠ []) : firstOcc sep [] = none := by
  simp [firstOcc, List.isEmpty_iff, hsep]

theorem firstOcc_ne_nil {sep s : List Char} {i : Nat} (hsep : sep ≠ [])
    (h : firstOcc sep s = some i) : s ≠ [] := by
  intro he
  subst he
  rw [firstOcc_nil sep hsep] at h
  cases h

theorem firstOcc_isPrefixOf {sep : List Char} :
    ∀ {s : List Char} {i : Nat}, firstOcc sep s = some i →
      sep.isPrefixOf (s.drop i) = true := by
  intro s
  induction s with
  | nil =>
    intro i h
    simp only [firstOcc] at h
    split at h
    · next hse =>
      cases h
      have : sep = [] := List.isEmpty_iff.mp hse
      subst this
      rfl
    · cases h
  | cons c rest ih =>
    intro i h
    simp only [firstOcc] at h
    split at h
    · next hpre =>
      cases h
      exact hpre
    · next hpre =>
      cases hi : firstOcc sep rest with
      | none => rw [hi] at h; cases h
      | some j =>
        rw [hi] at h
        cases h
        simpa using ih hi

theorem firstOcc_min {sep : List Char} :
    ∀ {s : List Char} {i j : Nat}, firstOcc sep s = some i →
      sep.isPrefixOf (s.drop j) = true → i ≤ j := by
  intro s
  induction s with
  | nil =>
    intro i j h hj
    simp only [firstOcc] at h
    split at h
    · cases h; exact Nat.zero_le j
    · cases h
  | cons c rest ih =>
    intro i j h hj
    simp only [firstOcc] at h
    split at h
    · cases h; exact Nat.zero_le j
    · next hpre =>
      cases hi : firstOcc sep rest with
      | none => rw [hi] at h; cases h
      | some j2 =>
        rw [hi] at h
        cases h
        cases j with
        | zero =>
          rw [List.drop_zero] at hj
          exact absurd hj hpre
        | succ k =>
          have h2 := ih hi (by simpa using hj)
          show j2 + 1 ≤ k + 1
          omega

theorem firstOcc_isSome_of_prefixAt {sep : List Char} :
    ∀ {s : List Char} (j : Nat), sep.isPrefixOf (s.drop j) = true →
      (firstOcc sep s).isSome = true := by
  intro s
  induction s with
  | nil =>
    intro j hj
    rw [List.drop_nil] at hj
    cases sep with
    | nil => simp [firstOcc]
    | cons a as => simp [List.isPrefixOf] at hj
  | cons c rest ih =>
    intro j hj
    simp only [firstOcc]
    split
    · rfl
    · next hpre =>
      cases j with
      | zero => rw [List.drop_zero] at hj; exact absurd hj hpre
      | succ k =>
        have := ih k (by simpa using hj)
        simpa using this

theorem firstOcc_take_none {sep t : List Char} {i : Nat} (hsep : sep ≠ [])
    (h : firstOcc sep t = some i) : firstOcc sep (t.take i) = none := by
  cases hocc : firstOcc sep (t.take i) with
  | none => rfl
  | some j =>
    exfalso
    have hpre : sep.isPrefixOf ((t.take i).drop j) = true := firstOcc_isPrefixOf hocc
    rw [List.drop_take] at hpre
    by_cases hij : j < i
    · have h1 : sep <+: ((t.drop j).take (i - j)) := List.isPrefixOf_iff_prefix.mp hpre
      have h2 : sep <+: t.drop j := h1.trans (List.take_prefix _ _)
      have h3 : sep.isPrefixOf (t.drop j) = true := List.isPrefixOf_iff_prefix.mpr h2
      have := firstOcc_min h h3
      omega
    · have hzero : i - j = 0 := by omega
      rw [hzero, List.take_zero] at hpre
      cases sep with
      | nil => exact hsep rfl
      | cons a as => simp [List.isPrefixOf] at hpre

theorem beforeFirst_of_no_occ {sep X : List Char} (h : firstOcc sep X = none) :
    beforeFirst sep X = X := by
  simp [beforeFirst, h]

theorem beforeFirst_no_occ {sep t : List Char} (hsep : sep ≠ []) :
    firstOcc sep (beforeFirst sep t) = none := by
  cases h : firstOcc sep t with
  | none => simpa [beforeFirst, h] using h
  | some i => simpa [beforeFirst, h] using firstOcc_take_none hsep h

theorem beforeFirst_idem (sep t : List Char) (hsep : sep ≠ []) :
    beforeFirst sep (beforeFirst sep t) = beforeFirst sep t :=
  beforeFirst_of_no_occ (beforeFirst_no_occ hsep)

theorem pySplitFuel_head (sep s : List Char) (fuel : Nat) :
    (pySplitFuel sep (fuel + 1) s).getD 0 [] = beforeFirst sep s := by
  cases h : firstOcc sep s <;> simp [pySplitFuel, beforeFirst, h]

theorem pySplit_head (sep s : List Char) :
    (pySplit sep s).getD 0 [] = beforeFirst sep s := by
  unfold pySplit
  exact pySplitFuel_head sep s s.length

theorem pySplitFuel_succ_occ (sep s : List Char) (i fuel : Nat)
    (h : firstOcc sep s = some i) :
    pySplitFuel sep (fuel + 1) s =
      s.take i :: pySplitFuel sep fuel (s.drop (i + sep.length)) := by
  simp [pySplitFuel, h]

theorem pySplit_second {sep s : List Char} {i : Nat} (hsep : sep ≠ [])
    (h : firstOcc sep s = some i) :
    (pySplit sep s).getD 1 [] = beforeFirst sep (afterFirstOcc sep s) := by
  have hne : s ≠ [] := firstOcc_ne_nil hsep h
  obtain ⟨k, hk⟩ : ∃ k, s.length = k + 1 := by
    cases s with
    | nil => exact absurd rfl hne
    | cons a as => exact ⟨as.length, rfl⟩
  unfold pySplit
  rw [hk, pySplitFuel_succ_occ sep s i (k + 1) h, List.getD_cons_succ,
    pySplitFuel_head]
  simp [afterFirstOcc, h]

theorem json_candidate_eq {s : List Char} (h : pyContains jsonFenceM s = true) :
    json_candidate s =
      beforeFirst fenceM (beforeFirst jsonFenceM (afterFirstOcc jsonFenceM s)) := by
  simp only [pyContains] at h
  obtain ⟨i, hi⟩ := Option.isSome_iff_exists.mp h
  unfold json_candidate
  rw [pySplit_second (by decide) hi, pySplit_head]

theorem generic_candidate_eq {s : List Char} (h : pyContains fenceM s = true) :
    generic_candidate s = spec_generic_candidate s := by
  simp only [pyContains] at h
  obtain ⟨i, hi⟩ := Option.isSome_iff_exists.mp h
  unfold generic_candidate spec_generic_candidate
  rw [pySplit_second (by decide) hi, pySplit_head,
    beforeFirst_idem _ _ (by decide)]

theorem pyContains_fence_of_jsonFence {s : List Char}
    (h : pyContains jsonFenceM s = true) : pyContains fenceM s = true := by
  simp only [pyContains] at h ⊢
  obtain ⟨i, hi⟩ := Option.isSome_iff_exists.mp h
  have h1 : jsonFenceM.isPrefixOf (s.drop i) = true := firstOcc_isPrefixOf hi
  have h2 : fenceM <+: jsonFenceM := List.isPrefixOf_iff_prefix.mp (by rfl)
  have h3 : fenceM.isPrefixOf (s.drop i) = true :=
    List.isPrefixOf_iff_prefix.mpr (h2.trans (List.isPrefixOf_iff_prefix.mp h1))
  exact firstOcc_isSome_of_prefixAt i h3

theorem pyContains_jsonFence_eq_false {s : List Char}
    (h : pyContains fenceM s = false) : pyContains jsonFenceM s = false := by
  cases hj : pyContains jsonFenceM s with
  | false => rfl
  | true => rw [pyContains_fence_of_jsonFence hj] at h; cases h

theorem dictGet_dictSet_same : ∀ (o : JObj) (k : List Char) (v : JValue),
    dictGet (dictSet o k v) k = some v
  | .onil, k, v => by simp [dictSet, dictGet]
  | .ocons k1 v1 rest, k, v => by
    by_cases hk : k1 = k
    · simp [dictSet, dictGet, hk]
    · simp [dictSet, dictGet, hk, dictGet_dictSet_same rest k v]

theorem dictGet_dictSet_other : ∀ (o : JObj) (k k2 : List Char) (v : JValue),
    k ≠ k2 → dictGet (dictSet o k v) k2 = dictGet o k2
  | .onil, k, k2, v, h => by simp [dictSet, dictGet, h]
  | .ocons k1 v1 rest, k, k2, v, h => by
    by_cases hk : k1 = k
    · subst hk
      simp [dictSet, dictGet, h]
    · simp only [dictSet, if_neg hk]
      by_cases hk2 : k1 = k2
      · simp [dictGet, hk2]
      · simp [dictGet, hk2, dictGet_dictSet_other rest k k2 v h]

theorem jGet_stamped_input (fields : JObj) (mode now : List Char) :
    jGet (.obj (dictSet (dictSet fields (("input_type").data) (.str mode))
      (("timestamp").data) (.str now))) (("input_type").data) = some (.str mode) := by
  show dictGet _ _ = _
  rw [dictGet_dictSet_other _ _ _ _ (by decide), dictGet_dictSet_same]

theorem jGet_stamped_time (fields : JObj) (mode now : List Char) :
    jGet (.obj (dictSet (dictSet fields (("input_type").data) (.str mode))
      (("timestamp").data) (.str now))) (("timestamp").data) = some (.str now) := by
  show dictGet _ _ = _
  rw [dictGet_dictSet_same]

/-- C1, amended: when `raw_text` contains the JSON fence marker, the selected
candidate is the substring after the first JSON fence marker, truncated at the
next non-overlapping JSON fence marker and then at the first closing fence
within that (Python split semantics); whenever the whitespace-trimmed
candidate parses as strict JSON, the extractor returns exactly the parsed
value, ignoring all prose before and after the fence. -/
theorem json_fence_branch_characterization (s : List Char)
    (h : pyContains jsonFenceM s = true) :
    json_candidate s =
      beforeFirst fenceM (beforeFirst jsonFenceM (afterFirstOcc jsonFenceM s))
    ∧ selected_candidate s = json_candidate s
    ∧ ∀ v : JValue, json_loads (pyStrip (json_candidate s)) = some v →
        parse_emotion_response s = v := by
  refine ⟨json_candidate_eq h, ?_, ?_⟩
  · simp [selected_candidate, h]
  · intro v hv
    simp [parse_emotion_response, selected_candidate, h, hv]

theorem json_fence_branch_characterization_witness :
    parse_emotion_response (("a ```json 7``` b").data) = JValue.num ['7'] :=
  (json_fence_branch_characterization (("a ```json 7``` b").data) (by rfl)).2.2
    (JValue.num ['7']) (by rfl)

/-- C1 counterexample: on `"```json{\"a\":1}````json"` (braces spelled here in
words to stay inside a comment) the substring between the JSON fence marker
and the next closing fence is the object text and parses, yet the extractor,
cutting first at the second ````json` marker, keeps a stray
backtick in its candidate and falls back instead of returning the parsed
object. -/
theorem json_fence_spec_candidate_counterexample :
    spec_json_candidate (("```json\x7b\"a\":1\x7d````json").data) = ("\x7b\"a\":1\x7d").data
    ∧ json_loads (pyStrip (spec_json_candidate (("```json\x7b\"a\":1\x7d````json").data))) =
        some (.obj (.ocons ['a'] (.num ['1']) .onil))
    ∧ json_candidate (("```json\x7b\"a\":1\x7d````json").data) ≠
        spec_json_candidate (("```json\x7b\"a\":1\x7d````json").data)
    ∧ parse_emotion_response (("```json\x7b\"a\":1\x7d````json").data) =
        fallback_record (("```json\x7b\"a\":1\x7d````json").data)
    ∧ fallback_record (("```json\x7b\"a\":1\x7d````json").data) ≠
        .obj (.ocons ['a'] (.num ['1']) .onil) := by
  refine ⟨by rfl, by rfl, by decide, by rfl, jval_ne_of_beq_false (by rfl)⟩

/-- C2, amended: the extractor returns any successfully parsed JSON value
unchanged — object or not — and produces the fallback record exactly when the
strict JSON parse of the trimmed candidate fails. -/
theorem parse_success_passthrough (s : List Char) :
    (∀ v : JValue, json_loads (pyStrip (selected_candidate s)) = some v →
        parse_emotion_response s = v)
    ∧ (json_loads (pyStrip (selected_candidate s)) = none →
        parse_emotion_response s = fallback_record s) := by
  constructor
  · intro v hv
    simp [parse_emotion_response, hv]
  · intro hv
    simp [parse_emotion_response, hv]

theorem parse_success_passthrough_witness :
    parse_emotion_response (("5").data) = JValue.num ['5'] :=
  (parse_success_passthrough (("5").data)).1 (JValue.num ['5']) (by rfl)

/-- C2 counterexample: on input `"5"` the candidate parses to the non-object
JSON number 5, and the extractor returns that number as-is — not the fallback
record the claim requires. -/
theorem nonobject_parse_counterexample :
    json_loads (pyStrip (selected_candidate (("5").data))) = some (JValue.num ['5'])
    ∧ parse_emotion_response (("5").data) = JValue.num ['5']
    ∧ parse_emotion_response (("5").data) ≠ fallback_record (("5").data) := by
  refine ⟨by rfl, by rfl, jval_ne_of_beq_false (by rfl)⟩

/-- C3 — confirmed: an input with no fence marker at all whose text does not
parse as JSON yields the fallback record, whose explanation and raw_response
fields both equal the original input character for character. -/
theorem no_fence_invalid_json_fallback (s : List Char)
    (hf : pyContains fenceM s = false)
    (hp : json_loads (pyStrip s) = none) :
    parse_emotion_response s = fallback_record s
    ∧ jGet (fallback_record s) (("primary_emotion").data) = some (.str (("unknown").data))
    ∧ jGet (fallback_record s) (("confidence").data) = some (.num ['0'])
    ∧ jGet (fallback_record s) (("explanation").data) = some (.str s)
    ∧ jGet (fallback_record s) (("raw_response").data) = some (.str s) := by
  have hsel : selected_candidate s = s := by
    simp [selected_candidate, hf, pyContains_jsonFence_eq_false hf]
  refine ⟨?_, by rfl, by rfl, by rfl, by rfl⟩
  simp [parse_emotion_response, hsel, hp]

theorem no_fence_invalid_json_fallback_witness :
    parse_emotion_response (("I think it is happy").data) =
      fallback_record (("I think it is happy").data) :=
  (no_fence_invalid_json_fallback (("I think it is happy").data) (by rfl) (by rfl)).1

/-- C4 — confirmed: with a generic fence but no JSON fence marker, the
candidate handed to the JSON parser is exactly the substring between the
first pair of fence markers — the whole tail when no second marker exists. -/
theorem generic_fence_candidate_correct (s : List Char)
    (hnj : pyContains jsonFenceM s = false)
    (hf : pyContains fenceM s = true) :
    generic_candidate s = spec_generic_candidate s
    ∧ selected_candidate s = generic_candidate s
    ∧ parse_emotion_response s =
        (match json_loads (pyStrip (spec_generic_candidate s)) with
          | some v => v
          | none => fallback_record s) := by
  have hc := generic_candidate_eq hf
  have hsel : selected_candidate s = generic_candidate s := by
    simp [selected_candidate, hnj, hf]
  refine ⟨hc, hsel, ?_⟩
  simp only [parse_emotion_response]
  rw [hsel, hc]

theorem generic_fence_candidate_correct_witness :
    generic_candidate (("no json here ```b").data) =
      spec_generic_candidate (("no json here ```b").data)
    ∧ spec_generic_candidate (("no json here ```b").data) = ("b").data :=
  ⟨(generic_fence_candidate_correct (("no json here ```b").data) (by rfl) (by rfl)).1,
    by rfl⟩

/-- C5 — confirmed: when the upstream model call fails, each of the three
handlers catches the failure and returns the error record with `error: true`,
the failure message, `primary_emotion: "error"`, `confidence: 0` and the
completion timestamp; an internal raise (the dict assignment `TypeError` on a
non-dict parse result) is caught the same way.  All handlers are total
functions, so no exception escapes to the caller. -/
theorem handlers_return_error_record_on_failure (e txt resp now : List Char)
    (data : Option ImageData) (uri : Option (List Char)) (p : ImagePart) :
    analyze_text_emotion (.error e) txt now = error_response e now
    ∧ (prepare_image_part data uri = .ok p →
        analyze_image_emotion (fun _ => .error e) data uri now = error_response e now)
    ∧ (prepare_image_part data uri = .ok p →
        analyze_multimodal_emotion (fun _ => .error e) txt data uri now =
          error_response e now)
    ∧ (isObjJ (parse_emotion_response resp) = false →
        analyze_text_emotion (.ok resp) txt now =
          error_response item_assignment_error_msg now)
    ∧ jGet (error_response e now) (("error").data) = some (.bool true)
    ∧ jGet (error_response e now) (("message").data) = some (.str e)
    ∧ jGet (error_response e now) (("primary_emotion").data) = some (.str (("error").data))
    ∧ jGet (error_response e now) (("confidence").data) = some (.num ['0'])
    ∧ jGet (error_response e now) (("timestamp").data) = some (.str now) := by
  refine ⟨rfl, ?_, ?_, ?_, rfl, rfl, rfl, rfl, rfl⟩
  · intro h
    simp [analyze_image_emotion, h]
  · intro h
    simp [analyze_multimodal_emotion, h]
  · intro h
    cases hp : parse_emotion_response resp <;>
      simp [analyze_text_emotion, hp, isObjJ] at h ⊢

theorem handlers_return_error_record_on_failure_witness :
    analyze_image_emotion (fun _ => .error (("boom").data)) none
      (some (("gs://b/i").data)) (("T1").data) =
        error_response (("boom").data) (("T1").data)
    ∧ analyze_text_emotion (.ok (("5").data)) (("hi").data) (("T1").data) =
        error_response item_assignment_error_msg (("T1").data) :=
  ⟨(handlers_return_error_record_on_failure (("boom").data) (("hi").data) (("5").data)
      (("T1").data) none (some (("gs://b/i").data)) (.fromUri (("gs://b/i").data))).2.1
      (by rfl),
   (handlers_return_error_record_on_failure (("boom").data) (("hi").data) (("5").data)
      (("T1").data) none (some (("gs://b/i").data)) (.fromUri (("gs://b/i").data))).2.2.2.1
      (by rfl)⟩

/-- C6 — confirmed: a POST to /api/analyze/text whose body has a missing or
empty `text` field is answered 400 with an error body, with zero calls to the
upstream model. -/
theorem text_route_rejects_missing_or_empty
    (upstream : Except (List Char) (List Char)) (now : List Char) :
    analyze_text none upstream now = (400, text_required_error, 0)
    ∧ analyze_text (some []) upstream now = (400, text_required_error, 0) :=
  ⟨rfl, rfl⟩

/-- C7 — confirmed: the image route with neither `image` nor `image_uri`, and
the multimodal route with missing `text` or with neither image field, answer
400 without invoking the upstream model. -/
theorem image_multimodal_routes_reject_missing
    (upstream : ImagePart → Except (List Char) (List Char)) (now : List Char)
    (t : Option (List Char)) (img : Option ImageData) (uri : Option (List Char)) :
    analyze_image none none upstream now = (400, image_required_error, 0)
    ∧ analyze_multimodal none img uri upstream now = (400, text_required_error, 0)
    ∧ (analyze_multimodal t none none upstream now).1 = 400
    ∧ (analyze_multimodal t none none upstream now).2.2 = 0 := by
  refine ⟨rfl, rfl, ?_, ?_⟩ <;>
  · cases t with
    | none => rfl
    | some s =>
      by_cases hs : s.isEmpty <;>
        simp [analyze_multimodal, hs, pyTruthyImg, pyTruthyOptStr]

/-- C8 counterexample: the upstream call succeeds with reply `"5"`, yet the
returned record is the error record — it carries no `input_type` field at
all, because the stamping assignment raised `TypeError` on the non-dict
parse result. -/
theorem stamp_fields_counterexample :
    jGet (analyze_text_emotion (.ok (("5").data)) (("hi").data) (("T2").data))
      (("input_type").data) = none
    ∧ jGet (analyze_text_emotion (.ok (("5").data)) (("hi").data) (("T2").data))
        (("error").data) = some (.bool true) :=
  ⟨rfl, rfl⟩

/-- C8, amended: when the upstream call succeeds and the extractor's output
is a mapping (a genuine object parse or the fallback record), the handler
stamps `input_type` with exactly its own mode and `timestamp` with the
handler-completion clock value; when the extractor returns a non-object
parse, the stamping fails and the error record (without `input_type`) is
returned instead. -/
theorem stamp_fields_on_object_results (resp txt now : List Char) (fields : JObj)
    (data : Option ImageData) (uri : Option (List Char)) (p : ImagePart)
    (hobj : parse_emotion_response resp = .obj fields)
    (hprep : prepare_image_part data uri = .ok p) :
    jGet (analyze_text_emotion (.ok resp) txt now) (("input_type").data) =
      some (.str (("text").data))
    ∧ jGet (analyze_text_emotion (.ok resp) txt now) (("timestamp").data) =
        some (.str now)
    ∧ jGet (analyze_image_emotion (fun _ => .ok resp) data uri now)
        (("input_type").data) = some (.str (("image").data))
    ∧ jGet (analyze_image_emotion (fun _ => .ok resp) data uri now)
        (("timestamp").data) = some (.str now)
    ∧ jGet (analyze_multimodal_emotion (fun _ => .ok resp) txt data uri now)
        (("input_type").data) = some (.str (("multimodal").data))
    ∧ jGet (analyze_multimodal_emotion (fun _ => .ok resp) txt data uri now)
        (("timestamp").data) = some (.str now) := by
  have ht : analyze_text_emotion (.ok resp) txt now =
      .obj (dictSet (dictSet fields (("input_type").data) (.str (("text").data)))
        (("timestamp").data) (.str now)) := by
    simp [analyze_text_emotion, hobj]
  have hi : analyze_image_emotion (fun _ => .ok resp) data uri now =
      .obj (dictSet (dictSet fields (("input_type").data) (.str (("image").data)))
        (("timestamp").data) (.str now)) := by
    simp [analyze_image_emotion, hprep, hobj]
  have hm : analyze_multimodal_emotion (fun _ => .ok resp) txt data uri now =
      .obj (dictSet (dictSet fields (("input_type").data) (.str (("multimodal").data)))
        (("timestamp").data) (.str now)) := by
    simp [analyze_multimodal_emotion, hprep, hobj]
  rw [ht, hi, hm]
  exact ⟨jGet_stamped_input fields _ now, jGet_stamped_time fields _ now,
    jGet_stamped_input fields _ now, jGet_stamped_time fields _ now,
    jGet_stamped_input fields _ now, jGet_stamped_time fields _ now⟩

theorem stamp_fields_on_object_results_witness :
    jGet (analyze_text_emotion (.ok (("\x7b\"primary_emotion\": \"joy\"\x7d").data))
      (("hi").data) (("T3").data)) (("input_type").data) = some (.str (("text").data)) :=
  (stamp_fields_on_object_results (("\x7b\"primary_emotion\": \"joy\"\x7d").data)
    (("hi").data) (("T3").data)
    (.ocons (("primary_emotion").data) (.str (("joy").data)) .onil)
    none (some (("gs://x").data)) (.fromUri (("gs://x").data))
    (by rfl) (by rfl)).1

/-- C9 counterexample: when the model replies with an object containing a
nested object value, the handler returns that nested structure to the caller
unchanged — the result record is not flat. -/
theorem nested_object_counterexample :
    result_has_nested (analyze_text_emotion
      (.ok (("\x7b\"a\": \x7b\"b\": 2\x7d\x7d").data)) (("hi").data) (("T4").data)) = true := by
  rfl

/-- C9, amended: every record a handler returns is a JSON object (a key-value
mapping) at top level — error record, fallback record, or stamped parse — but
its values pass through unvalidated and may themselves be nested objects. -/
theorem results_top_level_objects (u1 : Except (List Char) (List Char))
    (u2 : ImagePart → Except (List Char) (List Char)) (txt now : List Char)
    (data : Option ImageData) (uri : Option (List Char)) :
    isObjJ (analyze_text_emotion u1 txt now) = true
    ∧ isObjJ (analyze_image_emotion u2 data uri now) = true
    ∧ isObjJ (analyze_multimodal_emotion u2 txt data uri now) = true := by
  refine ⟨?_, ?_, ?_⟩
  · cases u1 with
    | error e => rfl
    | ok resp =>
      cases hp : parse_emotion_response resp <;>
        simp [analyze_text_emotion, hp, isObjJ, error_response]
  · cases hprep : prepare_image_part data uri with
    | error e => simp [analyze_image_emotion, hprep, isObjJ, error_response]
    | ok p =>
      cases hu : u2 p with
      | error e => simp [analyze_image_emotion, hprep, hu, isObjJ, error_response]
      | ok resp =>
        cases hp : parse_emotion_response resp <;>
          simp [analyze_image_emotion, hprep, hu, hp, isObjJ, error_response]
  · cases hprep : prepare_image_part data uri with
    | error e => simp [analyze_multimodal_emotion, hprep, isObjJ, error_response]
    | ok p =>
      cases hu : u2 p with
      | error e => simp [analyze_multimodal_emotion, hprep, hu, isObjJ, error_response]
      | ok resp =>
        cases hp : parse_emotion_response resp <;>
          simp [analyze_multimodal_emotion, hprep, hu, hp, isObjJ, error_response]

/-- C10 counterexample: a call supplying both inline image data and an
empty-string `image_uri` builds the part from the inline data — the supplied
URI does not take precedence (Python truthiness treats `''` as absent). -/
theorem uri_precedence_counterexample :
    prepare_image_part (some (.strb64 (("QUJD").data))) (some []) =
      .ok (.fromB64Data (("QUJD").data))
    ∧ ImagePart.fromB64Data (("QUJD").data) ≠ .fromUri [] :=
  ⟨rfl, by decide⟩

/-- C10, amended: whenever a non-empty `image_uri` is supplied, it takes
precedence — the part handed to the model is built from the URI and the
handler result does not depend on the inline image data at all; an
empty-string URI is treated as not supplied. -/
theorem nonempty_uri_precedence (data : Option ImageData) (uri txt now : List Char)
    (upstream : ImagePart → Except (List Char) (List Char))
    (h : uri ≠ []) :
    prepare_image_part data (some uri) = .ok (.fromUri uri)
    ∧ analyze_image_emotion upstream data (some uri) now =
        analyze_image_emotion upstream none (some uri) now
    ∧ analyze_multimodal_emotion upstream txt data (some uri) now =
        analyze_multimodal_emotion upstream txt none (some uri) now := by
  have htr : pyTruthyOptStr (some uri) = true := by
    simp [pyTruthyOptStr, List.isEmpty_iff, h]
  have hp : ∀ d : Option ImageData, prepare_image_part d (some uri) = .ok (.fromUri uri) := by
    intro d
    simp [prepare_image_part, htr]
  refine ⟨hp data, ?_, ?_⟩
  · simp [analyze_image_emotion, hp]
  · simp [analyze_multimodal_emotion, hp]

theorem nonempty_uri_precedence_witness :
    prepare_image_part (some (.strb64 (("QUJD").data))) (some (("gs://bkt/img").data)) =
      .ok (.fromUri (("gs://bkt/img").data)) :=
  (nonempty_uri_precedence (some (.strb64 (("QUJD").data))) (("gs://bkt/img").data)
    (("t").data) (("T5").data) (fun _ => .error []) (by decide)).1

